import Mathlib

/-!
Shallow embedding of the PrintFleet status-polling core
(`src/printfleet/backends.py` and `src/printfleet/monitor.py`).

Python floats are modelled as `ℚ`, Python ints as `ℤ`, and dynamic JSON
values as the inductive `JVal`.  Python dicts (both JSON payloads and the
per-printer status records) are association lists `List (String × JVal)`;
the shared `printer_state` map is a function `String → Option JObj`.
-/

namespace PrintFleet

/-- Dynamic (JSON-like) Python value: number, string, `None`, bool,
dict, or list. -/
inductive JVal : Type
  | jnum (q : ℚ)
  | jstr (s : String)
  | jnull
  | jbool (b : Bool)
  | jobj (fields : List (String × JVal))
  | jarr (elems : List JVal)

open JVal

/-- A Python dict with `JVal` values (used for JSON payloads and for the
per-printer status records). -/
def JObj : Type := List (String × JVal)

/-- Python truthiness of a `JVal` (`bool(x)`). -/
def truthy : JVal → Bool
  | jnum q => q ≠ 0
  | jstr s => s ≠ ""
  | jnull => false
  | jbool b => b
  | jobj fs => ¬ fs.isEmpty
  | jarr es => ¬ es.isEmpty

/-- Dict lookup: `d[k]` as an `Option`. -/
def dGet (d : JObj) (k : String) : Option JVal :=
  match d with
  | [] => none
  | (k', v) :: t => if k' = k then some v else dGet t k

/-- Python `d.get(k, default)`. -/
def dGetD (d : JObj) (k : String) (dflt : JVal) : JVal :=
  (dGet d k).getD dflt

/-- Python `d[k] = v`: replace the value in place if the key exists
(keeping its position), otherwise append the new key. -/
def dSet (d : JObj) (k : String) (v : JVal) : JObj :=
  match d with
  | [] => [(k, v)]
  | (k', v') :: t => if k' = k then (k', v) :: t else (k', v') :: dSet t k v

/-- Python `d.update({...})`: apply the updates in literal order. -/
def dUpdate (d : JObj) (upds : List (String × JVal)) : JObj :=
  upds.foldl (fun acc p => dSet acc p.1 p.2) d

/-- The keys of a dict, in order. -/
def dKeys (d : JObj) : List String := d.map Prod.fst

/-- The shared `printer_state` mapping (display name → status record). -/
def Store : Type := String → Option JObj

/-- `printer_state.get(name)` / `printer_state[name]` as an `Option`. -/
def sGet (s : Store) (k : String) : Option JObj := s k

/-- `printer_state[name] = rec`. -/
def sSet (s : Store) (k : String) (r : JObj) : Store :=
  fun k' => if k' = k then some r else s k'

/-- `printer_state.pop(name, None)`. -/
def sPop (s : Store) (k : String) : Store :=
  fun k' => if k' = k then none else s k'

/-- The empty `printer_state`. -/
def emptyStore : Store := fun _ => none

/-- Python `int()` truncation toward zero of a rational. -/
def ratTrunc (q : ℚ) : ℤ := if 0 ≤ q then ⌊q⌋ else ⌈q⌉

/-- Digits to the natural number they denote (most significant first). -/
def digitsToNat (ds : List Char) : ℕ :=
  ds.foldl (fun a c => 10 * a + (c.toNat - 48)) 0

/-- Leading sign of a numeric literal: sign factor and the remainder. -/
def splitSign (cs : List Char) : ℤ × List Char :=
  match cs with
  | '+' :: r => (1, r)
  | '-' :: r => (-1, r)
  | r => (1, r)

/-- Parse an unsigned decimal mantissa (`123`, `123.45`, `.5`, `1.`):
its value and the remaining characters, or `none` if no digit at all. -/
def parseMantissa (cs : List Char) : Option (ℚ × List Char) :=
  let ip := cs.takeWhile Char.isDigit
  let r1 := cs.dropWhile Char.isDigit
  match r1 with
  | '.' :: r2 =>
      let fp := r2.takeWhile Char.isDigit
      let r3 := r2.dropWhile Char.isDigit
      if ip.isEmpty ∧ fp.isEmpty then none
      else some ((digitsToNat ip : ℚ) + (digitsToNat fp : ℚ) / (10 : ℚ) ^ fp.length, r3)
  | _ => if ip.isEmpty then none else some ((digitsToNat ip : ℚ), r1)

/-- ASCII whitespace stripped by Python `str.strip()` around numeric
literals. -/
def isSpaceChar (c : Char) : Bool :=
  c = ' ' ∨ c = '\t' ∨ c = '\n' ∨ c = '\r' ∨ c = '\x0b' ∨ c = '\x0c'

/-- Strip leading and trailing whitespace from a character list. -/
def trimChars (cs : List Char) : List Char :=
  ((cs.dropWhile isSpaceChar).reverse.dropWhile isSpaceChar).reverse

/-- Parse an optional exponent part (`e5`, `E-3`, or nothing). -/
def parseExpPart (cs : List Char) : Option (ℤ × List Char) :=
  match cs with
  | [] => some (0, [])
  | c :: r =>
      if c = 'e' ∨ c = 'E' then
        let sr := splitSign r
        let ds := sr.2.takeWhile Char.isDigit
        let r2 := sr.2.dropWhile Char.isDigit
        if ds.isEmpty then none else some (sr.1 * (digitsToNat ds : ℤ), r2)
      else some (0, cs)

/-- CPython `float(str)` on decimal literals: optional surrounding
whitespace, optional sign, decimal mantissa, optional exponent.
(`inf`/`nan` are not modelled; no claim exercises them.) -/
def parseFloatQ (s : String) : Option ℚ :=
  let sr := splitSign (trimChars s.data)
  match parseMantissa sr.2 with
  | none => none
  | some (m, r1) =>
      match parseExpPart r1 with
      | none => none
      | some (ex, r2) =>
          if r2.isEmpty then some ((sr.1 : ℚ) * m * (10 : ℚ) ^ ex) else none

/-- CPython `int(str)`: optional surrounding whitespace, optional sign,
digits only. -/
def parseIntQ (s : String) : Option ℤ :=
  let sr := splitSign (trimChars s.data)
  let ds := sr.2.takeWhile Char.isDigit
  let r := sr.2.dropWhile Char.isDigit
  if ds.isEmpty ∨ ¬ r.isEmpty then none else some (sr.1 * (digitsToNat ds : ℤ))

/-- Python `float(x)` on a dynamic value: numbers and bools convert,
numeric-literal strings parse, everything else raises. -/
def pyFloat : JVal → Except Unit ℚ
  | jnum q => .ok q
  | jbool b => .ok (if b then 1 else 0)
  | jstr s =>
      match parseFloatQ s with
      | some q => .ok q
      | none => .error ()
  | jnull => .error ()
  | jobj _ => .error ()
  | jarr _ => .error ()

/-- Python `int(x)` on a dynamic value: numbers truncate toward zero,
bools convert, integer-literal strings parse, everything else raises. -/
def pyInt : JVal → Except Unit ℤ
  | jnum q => .ok (ratTrunc q)
  | jbool b => .ok (if b then 1 else 0)
  | jstr s =>
      match parseIntQ s with
      | some z => .ok z
      | none => .error ()
  | jnull => .error ()
  | jobj _ => .error ()
  | jarr _ => .error ()

/-- `_num` from `backends.py`: `float(x)` with fallback `0.0` on any
exception. -/
def _num (v : JVal) : ℚ :=
  match pyFloat v with
  | .ok q => q
  | .error _ => 0

/-- Python `d.get(k, default)` on a dynamic value: raises (like
`AttributeError`) when the receiver is not a dict. -/
def pyGetD (v : JVal) (k : String) (dflt : JVal) : Except Unit JVal :=
  match v with
  | jobj fs => .ok (dGetD fs k dflt)
  | _ => .error ()

/-- Python `x or y` specialised to a default value: `y` if `x` is falsy. -/
def pyOr (v : JVal) (dflt : JVal) : JVal :=
  if truthy v then v else dflt

/-- Round-half-to-even on a rational (CPython `round` tie behaviour). -/
def roundHalfEven (q : ℚ) : ℤ :=
  if Int.fract q = 1 / 2 then (if 2 ∣ ⌊q⌋ then ⌊q⌋ else ⌊q⌋ + 1) else round q

/-- Python `round(x, 1)` over rationals. -/
def pyRound1 (q : ℚ) : ℚ := (roundHalfEven (q * 10) : ℚ) / 10

/-! ## Backend adapters (`backends.py`) -/

/-- The raw snapshot tuple returned by every `fetch_*` function:
`(state, filename, elapsed, progress, hotend, hotend_t, bed, bed_t)`.
`state` and `filename` are dynamic values (Moonraker passes both through
from the payload); the six numbers are Python floats. -/
structure Snap where
  state : JVal
  filename : JVal
  elapsed : ℚ
  progress : ℚ
  hotend : ℚ
  hotend_t : ℚ
  bed : ℚ
  bed_t : ℚ

/-- The fixed Centauri status-code table of `fetch_centauri`
(`state_map.get(st_raw, "standby")`). -/
def centauriStateTable (z : ℤ) : String :=
  if z = 0 then "standby"
  else if z = 1 then "printing"
  else if z = 2 then "paused"
  else if z = 3 then "stopped"
  else if z = 4 then "complete"
  else "standby"

/-- The pure tail of `fetch_centauri` (backends.py lines 89-123): the
computation from an accepted frame `data` (a dict containing `"Status"`)
to the returned snapshot.  `total = float(...) or 0.0` is the identity
on the parsed number and is modelled as the plain coercion.  Bare
`float()` / `int()` raise on non-numeric input, so this returns
`Except.error` exactly where the Python code raises. -/
def centauriParse (data : JObj) : Except Unit Snap := do
  let status := pyOr (dGetD data "Status" (jobj [])) (jobj [])
  let piV ← pyGetD status "PrintInfo" (jobj [])
  let pi := pyOr piV (jobj [])
  let hotend ← pyFloat (← pyGetD status "TempOfNozzle" (jnum 0))
  let hotend_t ← pyFloat (← pyGetD status "TempTargetNozzle" (jnum 0))
  let bed ← pyFloat (← pyGetD status "TempOfHotbed" (jnum 0))
  let bed_t ← pyFloat (← pyGetD status "TempTargetHotbed" (jnum 0))
  let elapsed ← pyFloat (← pyGetD pi "CurrentTicks" (jnum 0))
  let total ← pyFloat (← pyGetD pi "TotalTicks" (jnum 0))
  let prog_raw ← pyFloat (← pyGetD pi "Progress" (jnum 0))
  let progress : ℚ :=
    if 1 < prog_raw then prog_raw / 100
    else if 0 < prog_raw ∧ prog_raw ≤ 1 then prog_raw
    else if 0 < total then max 0 (min 1 (elapsed / total))
    else 0
  let filename := pyOr (← pyGetD pi "Filename" (jstr "")) (jstr "")
  let st_raw ← pyInt (← pyGetD pi "Status" (jnum 0))
  pure { state := jstr (centauriStateTable st_raw), filename, elapsed, progress,
         hotend, hotend_t, bed, bed_t }

/-- The pure tail of `fetch_moonraker` (backends.py lines 150-166): from
the decoded JSON body to the returned snapshot.  All numeric fields go
through `_num`, which falls back to `0.0`. -/
def moonrakerParse (body : JVal) : Except Unit Snap := do
  let result ← pyGetD body "result" (jobj [])
  let data ← pyGetD result "status" (jobj [])
  let ps := pyOr (← pyGetD data "print_stats" (jobj [])) (jobj [])
  let vsd := pyOr (← pyGetD data "virtual_sdcard" (jobj [])) (jobj [])
  let ext := pyOr (← pyGetD data "extruder" (jobj [])) (jobj [])
  let bed0 := pyOr (← pyGetD data "heater_bed" (jobj [])) (jobj [])
  let state ← pyGetD ps "state" (jstr "unknown")
  let filename := pyOr (← pyGetD ps "filename" (jstr "")) (jstr "")
  let elapsed := _num (← pyGetD ps "print_duration" (jnum 0))
  let progress := _num (← pyGetD vsd "progress" (jnum 0))
  let hotend := _num (← pyGetD ext "temperature" jnull)
  let hotend_t := _num (← pyGetD ext "target" jnull)
  let bed_c := _num (← pyGetD bed0 "temperature" jnull)
  let bed_t := _num (← pyGetD bed0 "target" jnull)
  pure { state, filename, elapsed, progress, hotend, hotend_t, bed := bed_c, bed_t }

/-- ASCII lowercasing, modelling Python `str.lower()` on the ASCII state
texts OctoPrint produces. -/
def lowerStr (s : String) : String := ⟨s.data.map Char.toLower⟩

/-- Substring containment on character lists (Python `pat in hay`). -/
def containsSub (pat : List Char) : List Char → Bool
  | [] => pat.isEmpty
  | c :: t => pat.isPrefixOf (c :: t) || containsSub pat t

/-- Python `pat in s` for strings. -/
def strContains (s pat : String) : Bool := containsSub pat.data s.data

/-- The state-text cascade of `fetch_octoprint` (backends.py lines
198-210): lowercase the free-text state, then ordered substring tests. -/
def octoMapState (state_text : String) : String :=
  let st := lowerStr state_text
  if strContains st "printing" || strContains st "in progress" then "printing"
  else if strContains st "paused" then "paused"
  else if strContains st "cancelling" || strContains st "cancelled" then "cancelled"
  else if strContains st "complete" || strContains st "finished" || strContains st "done" then
    "complete"
  else if strContains st "error" || strContains st "offline" || strContains st "closed" then
    "error"
  else "standby"

/-- Modelled from the spec (§4.1): a case-insensitive substring test,
for the spec-side formulation of the OctoPrint mapping. -/
def specContainsCI (s pat : String) : Bool := strContains (lowerStr s) pat

/-- Modelled from the spec (§4.1): the OctoPrint free-text job-state
string mapped to the canonical enum "by ordered substring match:
contains printing/in progress → printing; paused → paused;
cancelling/cancelled → cancelled; any of complete/finished/done →
complete; any of error/offline/closed → error; otherwise standby",
case-insensitively. -/
def specOctoStateMap (s : String) : String :=
  if specContainsCI s "printing" || specContainsCI s "in progress" then "printing"
  else if specContainsCI s "paused" then "paused"
  else if specContainsCI s "cancelling" || specContainsCI s "cancelled" then "cancelled"
  else if ["complete", "finished", "done"].any (specContainsCI s) then "complete"
  else if ["error", "offline", "closed"].any (specContainsCI s) then "error"
  else "standby"

/-- The completion coercion of `fetch_octoprint` (backends.py line 183):
`(progress / 100.0) if isinstance(progress, (int, float)) else 0.0`.
Python bools are instances of `int`, so they pass the check too. -/
def octoCompletion01 (v : JVal) : ℚ :=
  match v with
  | jnum q => q / 100
  | jbool b => (if b then 1 else 0) / 100
  | _ => 0

/-- Python attribute access `x.lower()`: succeeds only on a string
(anything else raises `AttributeError`). -/
def pyAsStr (v : JVal) : Except Unit String :=
  match v with
  | jstr s => .ok s
  | _ => .error ()

/-- The pure tail of `fetch_octoprint` (backends.py lines 181-212): from
the two decoded JSON bodies (`/api/job` and `/api/printer`) to the
returned snapshot.  `completion` goes through the `isinstance` check,
`printTime` and the four temperatures through `_num`, the filename read
is wrapped in try/except, and `state_text.lower()` (modelled by
`pyAsStr` feeding `octoMapState`, which lowercases) raises on a truthy
non-string state. -/
def octoprintParse (job prn : JVal) : Except Unit Snap := do
  let stateV ← pyGetD job "state" jnull
  let state_textJ := pyOr stateV (jstr "")
  let completion ← pyGetD (pyOr (← pyGetD job "progress" (jobj [])) (jobj []))
    "completion" jnull
  let progress01 := octoCompletion01 completion
  let printTime ← pyGetD (pyOr (← pyGetD job "progress" (jobj [])) (jobj []))
    "printTime" jnull
  let elapsed := _num printTime
  let filename : JVal :=
    match (do
      let j ← pyGetD job "job" (jobj [])
      let f ← pyGetD j "file" (jobj [])
      let n ← pyGetD f "name" jnull
      pure (pyOr n (jstr "")) : Except Unit JVal) with
    | .ok v => v
    | .error _ => jstr ""
  let tool0 := pyOr (← pyGetD (pyOr (← pyGetD prn "temperature" (jobj [])) (jobj []))
    "tool0" (jobj [])) (jobj [])
  let bedd := pyOr (← pyGetD (pyOr (← pyGetD prn "temperature" (jobj [])) (jobj []))
    "bed" (jobj [])) (jobj [])
  let hotend := _num (← pyGetD tool0 "actual" jnull)
  let hotend_t := _num (← pyGetD tool0 "target" jnull)
  let bed_c := _num (← pyGetD bedd "actual" jnull)
  let bed_t := _num (← pyGetD bedd "target" jnull)
  let st ← pyAsStr state_textJ
  pure { state := jstr (octoMapState st), filename, elapsed, progress := progress01,
         hotend, hotend_t, bed := bed_c, bed_t }

/-! ## Monitor loop (`monitor.py`) -/

/-- Zero-padded two-digit rendering (Python `f"{n:02d}"` for the
nonnegative values produced by `%`). -/
def pad2 (n : ℤ) : String :=
  if 0 ≤ n ∧ n < 10 then "0" ++ toString n else toString n

/-- `fmt_hms` from monitor.py: `int(seconds or 0)` (identity on a
number), then Python floor-division/modulo split into h:m:s. -/
def fmt_hms (seconds : ℚ) : String :=
  let s : ℤ := ratTrunc seconds
  let h := Int.fdiv s 3600
  let m := Int.fdiv (Int.emod s 3600) 60
  let s2 := Int.emod s 60
  if 0 < h then toString h ++ ":" ++ pad2 m ++ ":" ++ pad2 s2 ++ " h"
  else pad2 m ++ ":" ++ pad2 s2 ++ " min"

/-- `progress_bar_pct` from monitor.py:
`round(max(0.0, min(1.0, float(progress or 0.0))) * 100.0, 1)`
(`float(x or 0.0)` is the identity on a number). -/
def progress_bar_pct (progress : ℚ) : ℚ :=
  pyRound1 (max 0 (min 1 progress) * 100)

/-- The ETA computation of monitor.py lines 201-203:
`if progress and progress > 0 and elapsed and elapsed > 0`, keeping the
float-truthiness tests of the source. -/
def etaS (progress elapsed : ℚ) : ℚ :=
  if (progress ≠ 0 ∧ 0 < progress) ∧ (elapsed ≠ 0 ∧ 0 < elapsed) then
    elapsed * (1 / progress - 1)
  else 0

/-- An optional string as a record value (`None` for a missing host). -/
def optStrJ : Option String → JVal
  | some s => jstr s
  | none => jnull

/-- An optional integer as a record value. -/
def optIntJ : Option ℤ → JVal
  | some z => jnum z
  | none => jnull

/-- `build_no_scanning_state` from monitor.py lines 40-63. -/
def build_no_scanning_state (id? : Option ℤ) (name backendRaw host : String)
    (port : ℤ) (https : Bool) (tasmota : Option String) : JObj :=
  let scheme := if https then "https" else "http"
  [("id", optIntJ id?), ("name", jstr name), ("backend", jstr backendRaw),
   ("host", jstr host), ("state", jstr "no_scanning"), ("filename", jstr ""),
   ("progress_pct", jnum 0), ("elapsed_s", jnum 0), ("eta_s", jnum 0),
   ("elapsed_hms", jstr ""), ("eta_hms", jstr ""), ("hotend", jnull),
   ("hotend_t", jnull), ("bed", jnull), ("bed_t", jnull),
   ("last_update", jnum 0), ("error", jnull),
   ("link", jstr (scheme ++ "://" ++ host ++ ":" ++ toString port ++ "/")),
   ("tasmota_host", optStrJ tasmota), ("no_scanning", jbool true)]

/-- A row of the `printers` table as `monitor_printer`'s enabled-check
query reads it (`SELECT enabled, tasmota_host, no_scanning, host, port,
https FROM printers WHERE id = ?`); every column may be NULL. -/
structure Row where
  enabled : Option ℤ
  tasmota_host : Option String
  no_scanning : Option ℤ
  host : Option String
  port : Option ℤ
  https : Option ℤ

/-- The per-task constants of `monitor_printer` fixed before its loop:
name, id, lowercased backend, raw backend string, connection fields, the
`current_tasmota_host` entering the iteration, and `err_interval`. -/
structure MonCfg where
  name : String
  printer_id : ℤ
  prnId : Option ℤ
  be : String
  backendRaw : String
  host : String
  port : ℤ
  https : Bool
  tasmota0 : Option String
  err_interval : ℚ

/-- `scheme = "https" if https else "http"`. -/
def MonCfg.scheme (c : MonCfg) : String := if c.https then "https" else "http"

/-- `base_url = f"{scheme}://{host}:{port}"`. -/
def MonCfg.base_url (c : MonCfg) : String :=
  c.scheme ++ "://" ++ c.host ++ ":" ++ toString c.port

/-- The link string `f"{scheme}://{host}:{port}/"` used in records. -/
def MonCfg.link (c : MonCfg) : String :=
  c.scheme ++ "://" ++ c.host ++ ":" ++ toString c.port ++ "/"

/-- The backend aliases treated as Centauri by `monitor_printer`. -/
def isCentauriBe (be : String) : Bool :=
  be = "centauri" || be = "centurio" || be = "centuri" || be = "elegoo"

/-- The error-throttling variables of `monitor_printer`. -/
structure ErrSt where
  consecutive_errors : ℕ
  last_error_report_ts : ℚ
  last_error_text : Option String

/-- The values at task start: counter 0, timestamp 0.0, no text. -/
def ErrSt.init : ErrSt := ⟨0, 0, none⟩

/-- Outcome of one backend fetch: a snapshot, a
`requests.exceptions.RequestException` (with its text), or any other
exception (with its text). -/
inductive PollOutcome
  | ok (snap : Snap)
  | reqExc (msg : String)
  | exc (msg : String)

/-- `fetch_centauri` never uses `requests`: every failure it surfaces is
a `RuntimeError` (backends.py lines 131-134) or a propagated
`ValueError`/`AttributeError` from its parsing, so the monitor always
sees a Centauri failure as a generic exception, never as a
`RequestException`. -/
def centauriFetchFailure (msg : String) : PollOutcome :=
  .exc ("SDCP-Status konnte nicht gelesen werden: " ++ msg)

/-- Result of one iteration of `monitor_printer`'s loop: the new store,
whether the task exited (`break`), whether a throttled error diagnostic
was printed, and the new throttling variables. -/
structure StepRes where
  store : Store
  exited : Bool
  reported : Bool
  es : ErrSt

/-- Python `v == "s"` on a dynamic value. -/
def jvalIsStr (v : JVal) (s : String) : Bool :=
  match v with
  | jstr s' => s' = s
  | _ => false

/-- `prev and prev.get("state") == "printing"` for a stored record. -/
def prevIsPrinting (pr : Option JObj) : Bool :=
  match pr with
  | some d => (¬ d.isEmpty) && (match dGet d "state" with
      | some v => jvalIsStr v "printing"
      | none => false)
  | none => false

/-- The Centauri keep-printing heuristic of monitor.py lines 177-197:
if the previous record was `printing` and the fresh snapshot says
`standby` while progress or a target temperature is positive, keep
`printing`; otherwise the snapshot state is used unchanged. -/
def centauriKeepPrinting (c : MonCfg) (store : Store) (snap : Snap) : JVal :=
  if isCentauriBe c.be
      && prevIsPrinting (sGet store c.name)
      && jvalIsStr snap.state "standby"
      && (decide (0 < snap.progress) || decide (0 < snap.hotend_t)
          || decide (0 < snap.bed_t)) then
    jstr "printing"
  else snap.state

/-- Python `err != last_error_text` where the right side may be `None`. -/
def pyStrNe (err : String) (last : Option String) : Bool :=
  match last with
  | none => true
  | some t => err ≠ t

/-- The diagnostic gate of monitor.py lines 271-275 and 329-333:
first occurrence, changed text, or throttle window elapsed. -/
def reportDecide (n : ℕ) (err : String) (now : ℚ) (es : ErrSt)
    (interval : ℚ) : Bool :=
  (n = 1) || pyStrNe err es.last_error_text
    || (interval ≤ now - es.last_error_report_ts)

/-- `f"NICHT ERREICHBAR (Versuch {n}): {e}"`. -/
def unreachableErrText (n : ℕ) (msg : String) : String :=
  "NICHT ERREICHBAR (Versuch " ++ toString n ++ "): " ++ msg

/-- `f"Unerwarteter Fehler im Backend '{be}' mit URL {base_url}: {e}"`. -/
def unexpectedErrText (be base_url msg : String) : String :=
  "Unerwarteter Fehler im Backend '" ++ be ++ "' mit URL " ++ base_url ++ ": " ++ msg

/-- The fallback dict of the `RequestException` handler (monitor.py
lines 242-248): identity fields only, no `link`. -/
def reqFallback (c : MonCfg) (tasmota : Option String) : JObj :=
  [("id", jnum c.printer_id), ("name", jstr c.name), ("backend", jstr c.be),
   ("host", jstr c.host), ("tasmota_host", optStrJ tasmota)]

/-- The fallback dict of the generic handler (monitor.py lines
287-297): identity fields plus `link`. -/
def genFallback (c : MonCfg) (tasmota : Option String) : JObj :=
  [("id", jnum c.printer_id), ("name", jstr c.name), ("backend", jstr c.be),
   ("host", jstr c.host), ("tasmota_host", optStrJ tasmota),
   ("link", jstr c.link)]

/-- The `st.update({...})` literal of the offline branch (monitor.py
lines 250-268). -/
def offlineUpd (c : MonCfg) (err : String) (now : ℚ) : List (String × JVal) :=
  [("state", jstr "offline"), ("filename", jstr ""), ("progress_pct", jnum 0),
   ("elapsed_s", jnum 0), ("eta_s", jnum 0), ("elapsed_hms", jstr "00:00 min"),
   ("eta_hms", jstr "00:00 min"), ("hotend", jnum 0), ("hotend_t", jnum 0),
   ("bed", jnum 0), ("bed_t", jnum 0), ("last_update", jnum (ratTrunc now)),
   ("error", jstr err), ("link", jstr c.link), ("no_scanning", jbool false)]

/-- The `st.update({...})` literal of the non-Centauri generic-error
branch (monitor.py lines 307-324); it does not touch `link`. -/
def errorUpd (err : String) (now : ℚ) : List (String × JVal) :=
  [("state", jstr "error"), ("filename", jstr ""), ("progress_pct", jnum 0),
   ("elapsed_s", jnum 0), ("eta_s", jnum 0), ("elapsed_hms", jstr "00:00 min"),
   ("eta_hms", jstr "00:00 min"), ("hotend", jnum 0), ("hotend_t", jnum 0),
   ("bed", jnum 0), ("bed_t", jnum 0), ("last_update", jnum (ratTrunc now)),
   ("error", jstr err), ("no_scanning", jbool false)]

/-- The success record written under the state lock (monitor.py lines
205-227). -/
def successRecord (c : MonCfg) (tasmota : Option String) (state : JVal)
    (snap : Snap) (now : ℚ) : JObj :=
  let eta := etaS snap.progress snap.elapsed
  [("id", jnum c.printer_id), ("name", jstr c.name), ("backend", jstr c.be),
   ("host", jstr c.host), ("state", state), ("filename", snap.filename),
   ("progress_pct", jnum (progress_bar_pct snap.progress)),
   ("elapsed_s", jnum snap.elapsed), ("eta_s", jnum eta),
   ("elapsed_hms", jstr (fmt_hms snap.elapsed)),
   ("eta_hms", jstr (fmt_hms eta)),
   ("hotend", jnum (pyRound1 snap.hotend)),
   ("hotend_t", jnum (pyRound1 snap.hotend_t)),
   ("bed", jnum (pyRound1 snap.bed)), ("bed_t", jnum (pyRound1 snap.bed_t)),
   ("last_update", jnum (ratTrunc now)), ("error", jnull),
   ("link", jstr c.link), ("tasmota_host", optStrJ tasmota),
   ("no_scanning", jbool false)]

/-- The fetch/normalize/write part of one loop iteration (monitor.py
lines 150-336), after the enabled/no-scanning check decided to poll. -/
def pollPhase (c : MonCfg) (tasmota : Option String) (poll : PollOutcome)
    (now : ℚ) (es : ErrSt) (store : Store) : StepRes :=
  match poll with
  | .ok snap =>
      let state := centauriKeepPrinting c store snap
      { store := sSet store c.name (successRecord c tasmota state snap now),
        exited := false, reported := false,
        es := { consecutive_errors := 0, last_error_report_ts := 0,
                last_error_text := none } }
  | .reqExc msg =>
      let n := es.consecutive_errors + 1
      let err := unreachableErrText n msg
      let st := (sGet store c.name).getD (reqFallback c tasmota)
      let rep := reportDecide n err now es c.err_interval
      { store := sSet store c.name (dUpdate st (offlineUpd c err now)),
        exited := false, reported := rep,
        es := { consecutive_errors := n,
                last_error_report_ts := if rep then now else es.last_error_report_ts,
                last_error_text := if rep then some err else es.last_error_text } }
  | .exc msg =>
      let n := es.consecutive_errors + 1
      let err := unexpectedErrText c.be c.base_url msg
      let st := (sGet store c.name).getD (genFallback c tasmota)
      let st' :=
        if isCentauriBe c.be then
          dSet (dSet (dSet st "error" (jstr err)) "last_update"
            (jnum (ratTrunc now))) "no_scanning" (jbool false)
        else dUpdate st (errorUpd err now)
      let rep := reportDecide n err now es c.err_interval
      { store := sSet store c.name st', exited := false, reported := rep,
        es := { consecutive_errors := n,
                last_error_report_ts := if rep then now else es.last_error_report_ts,
                last_error_text := if rep then some err else es.last_error_text } }

/-- Python `row["host"] or host`. -/
def pyOrStr (v : Option String) (d : String) : String :=
  match v with
  | some s => if s = "" then d else s
  | none => d

/-- Python `row["port"] or port`. -/
def pyOrInt (v : Option ℤ) (d : ℤ) : ℤ :=
  match v with
  | some z => if z = 0 then d else z
  | none => d

/-- One full iteration of `monitor_printer`'s while loop (monitor.py
lines 107-339): the enabled/no-scanning check against the registry row
(`db` is `.error` when the DB read itself failed, which only warns and
continues), then the poll phase. -/
def monitorStep (c : MonCfg) (db : Except Unit (Option Row))
    (poll : PollOutcome) (now : ℚ) (es : ErrSt) (store : Store) : StepRes :=
  match db with
  | .ok none =>
      { store := sPop store c.name, exited := true, reported := false, es }
  | .ok (some row) =>
      if row.enabled ≠ some 1 then
        { store := sPop store c.name, exited := true, reported := false, es }
      else
        let tasmota := row.tasmota_host
        if row.no_scanning = some 1 then
          let host' := pyOrStr row.host c.host
          let port' := pyOrInt row.port c.port
          let https' := match row.https with
            | some x => decide (x ≠ 0)
            | none => c.https
          { store := sSet store c.name
              (build_no_scanning_state c.prnId c.name c.backendRaw host'
                port' https' tasmota),
            exited := true, reported := false, es }
        else pollPhase c tasmota poll now es store
  | .error _ => pollPhase c c.tasmota0 poll now es store

/-- The record stored under the device's key after one loop iteration. -/
def storedRec (c : MonCfg) (db : Except Unit (Option Row)) (poll : PollOutcome)
    (now : ℚ) (es : ErrSt) (store : Store) : Option JObj :=
  sGet (monitorStep c db poll now es store).store c.name

/-! ## Concrete inputs used by counterexamples and witnesses -/

/-- A well-formed Centauri status frame with the given `PrintInfo`
fields and nozzle/bed temperatures. -/
def mkCentData (stRaw : JVal) (prog ticks total hot hott bedv bedt : ℚ)
    (fn : String) : JObj :=
  [("Status", jobj
    [("TempOfNozzle", jnum hot), ("TempTargetNozzle", jnum hott),
     ("TempOfHotbed", jnum bedv), ("TempTargetHotbed", jnum bedt),
     ("PrintInfo", jobj
      [("CurrentTicks", jnum ticks), ("TotalTicks", jnum total),
       ("Progress", jnum prog), ("Filename", jstr fn),
       ("Status", stRaw)])])]

/-- A Centauri frame reporting raw status 0 while 40% through a job. -/
def c1data : JObj := mkCentData (jnum 0) (4 / 10) 100 250 0 0 0 0 "x.gcode"

/-- The snapshot `fetch_centauri` produces for `c1data`. -/
def c1snap : Snap :=
  { state := jstr "standby", filename := jstr "x.gcode", elapsed := 100,
    progress := 2 / 5, hotend := 0, hotend_t := 0, bed := 0, bed_t := 0 }

/-- A Centauri status frame whose nozzle temperature is an arbitrary
value. -/
def mkCentNozzle (v : JVal) : JObj :=
  [("Status", jobj
    [("TempOfNozzle", v),
     ("PrintInfo", jobj [("Status", jnum 0)])])]

/-- A well-formed Moonraker response body whose extruder temperature is
an arbitrary value. -/
def mkMoonBody (v : JVal) : JVal :=
  jobj [("result", jobj [("status", jobj
    [("print_stats", jobj [("state", jstr "standby"), ("filename", jstr ""),
      ("print_duration", jnum 0)]),
     ("virtual_sdcard", jobj [("progress", jnum 0)]),
     ("extruder", jobj [("temperature", v), ("target", jnum 0)]),
     ("heater_bed", jobj [("temperature", jnum 0), ("target", jnum 0)])])])]

/-- A well-formed OctoPrint `/api/job` body whose `completion` and
`printTime` fields are arbitrary values. -/
def mkOctoJob (completion printTime : JVal) : JVal :=
  jobj [("state", jstr "Operational"),
        ("progress", jobj [("completion", completion), ("printTime", printTime)]),
        ("job", jobj [("file", jobj [("name", jstr "a.gcode")])])]

/-- A well-formed OctoPrint `/api/printer` body whose tool0 actual
temperature is an arbitrary value. -/
def mkOctoPrn (actual : JVal) : JVal :=
  jobj [("temperature", jobj
    [("tool0", jobj [("actual", actual), ("target", jnum 0)]),
     ("bed", jobj [("actual", jnum 0), ("target", jnum 0)])])]

/-- An enabled, scanning registry row. -/
def okRow : Row :=
  { enabled := some 1, tasmota_host := none, no_scanning := some 0,
    host := some "h", port := some 80, https := some 0 }

/-- A registry row whose enabled flag was cleared. -/
def disabledRow : Row :=
  { enabled := some 0, tasmota_host := none, no_scanning := some 0,
    host := some "h", port := some 80, https := some 0 }

/-- Task constants of a Moonraker device with the default 30s error
throttle. -/
def moonCfg : MonCfg :=
  { name := "P1", printer_id := 1, prnId := some 1, be := "moonraker",
    backendRaw := "moonraker", host := "h", port := 80, https := false,
    tasmota0 := none, err_interval := 30 }

/-- Task constants of a Centauri device. -/
def centCfg : MonCfg :=
  { name := "C", printer_id := 7, prnId := some 7, be := "centauri",
    backendRaw := "centauri", host := "h", port := 80, https := false,
    tasmota0 := none, err_interval := 30 }

/-- A previously stored record showing an in-progress job. -/
def prevPrinting : JObj :=
  [("id", jnum 7), ("name", jstr "C"), ("backend", jstr "centauri"),
   ("host", jstr "h"), ("state", jstr "printing"), ("filename", jstr "part.gcode"),
   ("progress_pct", jnum 42), ("elapsed_s", jnum 600), ("eta_s", jnum 800),
   ("hotend", jnum 210), ("hotend_t", jnum 210), ("bed", jnum 60),
   ("bed_t", jnum 60), ("last_update", jnum 1000), ("error", jnull),
   ("link", jstr "http://h:80/"), ("tasmota_host", jnull),
   ("no_scanning", jbool false)]

/-- A store already holding `prevPrinting` under the Centauri device. -/
def centStore : Store := sSet emptyStore "C" prevPrinting

/-- First failing iteration of a sustained outage, at t = 0. -/
def c2r1 : StepRes :=
  monitorStep moonCfg (Except.ok (some okRow))
    (PollOutcome.reqExc "connection refused") 0 ErrSt.init emptyStore

/-- Second failing iteration, 5 seconds later, same underlying error. -/
def c2r2 : StepRes :=
  monitorStep moonCfg (Except.ok (some okRow))
    (PollOutcome.reqExc "connection refused") 5 c2r1.es c2r1.store

/-! ## Helper lemmas -/

/-- Bind on a successful `Except` computation. -/
theorem exceptOkBind {α β : Type} (a : α) (f : α → Except Unit β) :
    (Except.ok a >>= f : Except Unit β) = f a := rfl

/-- Bind on a failed `Except` computation. -/
theorem exceptErrBind {α β : Type} (f : α → Except Unit β) :
    ((Except.error () : Except Unit α) >>= f) = Except.error () := rfl

/-- Mapping over a failed `Except` computation. -/
theorem exceptMapErr {α β : Type} (f : α → β) :
    ((Except.error () : Except Unit α).map f) = Except.error () := rfl

/-- Dict lookup after a dict write. -/
theorem dGet_dSet (d : JObj) (k k' : String) (v : JVal) :
    dGet (dSet d k v) k' = if k' = k then some v else dGet d k' := by
  induction d with
  | nil =>
      by_cases h : k' = k
      · simp [dSet, dGet, h]
      · simp [dSet, dGet, h, Ne.symm h]
  | cons p t ih =>
      obtain ⟨k0, v0⟩ := p
      by_cases h0 : k0 = k
      · by_cases h1 : k' = k
        · simp [dSet, dGet, h0, h1]
        · simp [dSet, dGet, h0, h1, Ne.symm h1]
      · by_cases h1 : k0 = k'
        · have h2 : ¬ (k' = k) := fun hh => h0 (h1.trans hh)
          simp [dSet, dGet, h0, h1, h2]
        · simp [dSet, dGet, h0, h1, ih]

/-- Python `int()` truncation is the identity on integers. -/
theorem ratTrunc_intCast (z : ℤ) : ratTrunc (z : ℚ) = z := by
  unfold ratTrunc
  rcases le_or_lt 0 z with h | h
  · rw [if_pos (by exact_mod_cast h), Int.floor_intCast]
  · rw [if_neg (by exact_mod_cast h.not_le), Int.ceil_intCast]

/-- Round-half-to-even is the identity on integers. -/
theorem roundHalfEven_intCast (z : ℤ) : roundHalfEven (z : ℚ) = z := by
  unfold roundHalfEven
  rw [Int.fract_intCast]
  norm_num [round_intCast]

/-- Round-half-to-even of a nonnegative rational is nonnegative. -/
theorem roundHalfEven_nonneg {q : ℚ} (h0 : 0 ≤ q) : 0 ≤ roundHalfEven q := by
  unfold roundHalfEven
  by_cases hf : Int.fract q = 1 / 2
  · have hfl : 0 ≤ ⌊q⌋ := Int.le_floor.mpr (by exact_mod_cast h0)
    rw [if_pos hf]
    by_cases h2 : 2 ∣ ⌊q⌋
    · rw [if_pos h2]; exact hfl
    · rw [if_neg h2]; omega
  · rw [if_neg hf, round_eq]
    refine Int.le_floor.mpr ?_
    push_cast
    linarith

/-- Round-half-to-even respects an integer upper bound. -/
theorem roundHalfEven_le {q : ℚ} {z : ℤ} (h : q ≤ z) : roundHalfEven q ≤ z := by
  unfold roundHalfEven
  by_cases hf : Int.fract q = 1 / 2
  · have h1 := Int.floor_add_fract q
    rw [hf] at h1
    have hq : (⌊q⌋ : ℚ) = q - 1 / 2 := by linarith
    have hlt : ⌊q⌋ < z := by
      have hc : (⌊q⌋ : ℚ) < (z : ℚ) := by rw [hq]; linarith
      exact_mod_cast hc
    rw [if_pos hf]
    by_cases h2 : 2 ∣ ⌊q⌋
    · rw [if_pos h2]; omega
    · rw [if_neg h2]; omega
  · rw [if_neg hf, round_eq]
    have hc : ⌊q + 1 / 2⌋ < z + 1 := by
      refine Int.floor_lt.mpr ?_
      push_cast
      linarith
    omega

/-- One-decimal rounding of a nonnegative rational is nonnegative. -/
theorem pyRound1_nonneg {q : ℚ} (h : 0 ≤ q) : 0 ≤ pyRound1 q := by
  unfold pyRound1
  have h1 : 0 ≤ roundHalfEven (q * 10) := roundHalfEven_nonneg (by linarith)
  have h2 : (0 : ℚ) ≤ (roundHalfEven (q * 10) : ℚ) := by exact_mod_cast h1
  linarith

/-- One-decimal rounding never exceeds 100 on inputs at most 100. -/
theorem pyRound1_le_100 {q : ℚ} (h : q ≤ 100) : pyRound1 q ≤ 100 := by
  unfold pyRound1
  have h1 : roundHalfEven (q * 10) ≤ (1000 : ℤ) := roundHalfEven_le (by push_cast; linarith)
  have h2 : ((roundHalfEven (q * 10)) : ℚ) ≤ 1000 := by exact_mod_cast h1
  linarith

/-- `fetch_centauri` on a well-formed frame: the returned snapshot,
field by field, as a function of the raw values. -/
theorem centauriParse_mkCentData (z prog ticks total hot hott bedv bedt : ℚ)
    (fn : String) :
    centauriParse (mkCentData (jnum z) prog ticks total hot hott bedv bedt fn) =
      Except.ok
        { state := jstr (centauriStateTable (ratTrunc z)),
          filename := pyOr (jstr fn) (jstr ""),
          elapsed := ticks,
          progress :=
            if 1 < prog then prog / 100
            else if 0 < prog ∧ prog ≤ 1 then prog
            else if 0 < total then max 0 (min 1 (ticks / total))
            else 0,
          hotend := hot, hotend_t := hott, bed := bedv, bed_t := bedt } := rfl

/-! ## Claims -/

/-- C1 counterexample: a Centauri frame with raw status 0 and progress
0.4 (strictly between 0 and 1) yields snapshot state `standby`, not the
`printing` the claimed heuristic overrides would force, and the monitor
then stores `standby` as well (no previous record). -/
theorem centauri_no_heuristic_override_cex :
    centauriParse c1data = Except.ok c1snap ∧
    (0 : ℚ) < c1snap.progress ∧ c1snap.progress < 1 ∧
    c1snap.state = jstr "standby" ∧
    jstr "standby" ≠ jstr "printing" ∧
    (storedRec centCfg (Except.ok (some okRow)) (PollOutcome.ok c1snap) 0 ErrSt.init
        emptyStore).map (fun r => dGet r "state") = some (some (jstr "standby")) := by
  refine ⟨?_, by norm_num [c1snap], by norm_num [c1snap], rfl, by simp, by rfl⟩
  rw [show c1data = mkCentData (jnum 0) (4 / 10) 100 250 0 0 0 0 "x.gcode" from rfl,
    centauriParse_mkCentData]
  simp [c1snap, pyOr, truthy, centauriStateTable, ratTrunc]
  norm_num

/-- C1 (amended): `fetch_centauri` applies no heuristic overrides — the
snapshot state is exactly the fixed-table image of the raw status code,
whatever the progress, tick and filename values are; the only heuristic
lives in the monitor, which keeps `printing` precisely when the backend
is a Centauri alias, the previously stored record's state is
`printing`, the fresh snapshot says `standby`, and progress or a target
temperature is positive, and otherwise stores the snapshot state
unchanged. -/
theorem centauri_state_table_and_keep_printing :
    (∀ (z : ℤ) (prog ticks total hot hott bedv bedt : ℚ) (fn : String),
      (centauriParse (mkCentData (jnum (z : ℚ)) prog ticks total hot hott bedv bedt
          fn)).map Snap.state = Except.ok (jstr (centauriStateTable z))) ∧
    (∀ (c : MonCfg) (tasmota : Option String) (snap : Snap) (now : ℚ) (es : ErrSt)
        (store : Store),
      (sGet (pollPhase c tasmota (PollOutcome.ok snap) now es store).store c.name).map
          (fun r => dGet r "state") =
        some (some
          (if isCentauriBe c.be && prevIsPrinting (sGet store c.name)
              && jvalIsStr snap.state "standby"
              && (decide (0 < snap.progress) || decide (0 < snap.hotend_t)
                  || decide (0 < snap.bed_t)) then jstr "printing"
           else snap.state))) := by
  constructor
  · intro z prog ticks total hot hott bedv bedt fn
    rw [centauriParse_mkCentData]
    simp [Except.map, ratTrunc_intCast]
  · intro c tasmota snap now es store
    simp [pollPhase, sGet, sSet, successRecord, dGet, centauriKeepPrinting]

/-- C2 (code bug): under a sustained outage with unchanged underlying
error and a 30-second throttle window, the monitor emits a diagnostic
again on the second failing poll only 5 seconds after the first,
because the compared error text embeds the attempt counter and so is
never equal to the stored last text. -/
theorem unreachable_diagnostic_every_failure :
    c2r1.reported = true ∧
    c2r1.es.last_error_text = some (unreachableErrText 1 "connection refused") ∧
    c2r2.reported = true ∧
    unreachableErrText 2 "connection refused" ≠
      unreachableErrText 1 "connection refused" ∧
    moonCfg.err_interval = 30 ∧ ((5 : ℚ) - 0 < 30) :=
  ⟨rfl, rfl, rfl, by decide, rfl, by norm_num⟩

/-- C3 counterexample: a Centauri connection failure surfaces as a
generic `RuntimeError`, not a `RequestException`, so with a previous
in-progress record the stored state stays `printing` — it is not forced
to `offline` and the metrics are not zeroed. -/
theorem centauri_unreachable_not_offline_cex :
    centauriFetchFailure "[Errno 111] Connection refused" =
      PollOutcome.exc
        "SDCP-Status konnte nicht gelesen werden: [Errno 111] Connection refused" ∧
    (storedRec centCfg (Except.ok (some okRow))
        (centauriFetchFailure "[Errno 111] Connection refused") 10 ErrSt.init
        centStore).map (fun r => dGet r "state") = some (some (jstr "printing")) ∧
    jstr "printing" ≠ jstr "offline" ∧
    (storedRec centCfg (Except.ok (some okRow))
        (centauriFetchFailure "[Errno 111] Connection refused") 10 ErrSt.init
        centStore).map (fun r => dGet r "progress_pct") = some (some (jnum 42)) := by
  exact ⟨rfl, by rfl, by simp, by rfl⟩

/-- C3 (amended): when the adapter call raises a `RequestException`
(which the Moonraker and OctoPrint adapters do on unreachable hosts),
the monitor stores state `offline` with every metric zeroed while the
identity fields of the previous record (or of the fallback dict) are
left untouched; `fetch_centauri`, however, surfaces every failure as a
generic exception, under which a Centauri device's previously stored
state is preserved instead of being set to `offline`. -/
theorem unreachable_offline_per_backend :
    (∀ (c : MonCfg) (row : Row) (msg : String) (now : ℚ) (es : ErrSt) (store : Store),
      row.enabled = some 1 → row.no_scanning ≠ some 1 →
      ((storedRec c (Except.ok (some row)) (PollOutcome.reqExc msg) now es store).map
          (fun r => dGet r "state") = some (some (jstr "offline")) ∧
       (storedRec c (Except.ok (some row)) (PollOutcome.reqExc msg) now es store).map
          (fun r => dGet r "progress_pct") = some (some (jnum 0)) ∧
       (storedRec c (Except.ok (some row)) (PollOutcome.reqExc msg) now es store).map
          (fun r => dGet r "elapsed_s") = some (some (jnum 0)) ∧
       (storedRec c (Except.ok (some row)) (PollOutcome.reqExc msg) now es store).map
          (fun r => dGet r "eta_s") = some (some (jnum 0)) ∧
       (storedRec c (Except.ok (some row)) (PollOutcome.reqExc msg) now es store).map
          (fun r => dGet r "hotend") = some (some (jnum 0)) ∧
       (storedRec c (Except.ok (some row)) (PollOutcome.reqExc msg) now es store).map
          (fun r => dGet r "hotend_t") = some (some (jnum 0)) ∧
       (storedRec c (Except.ok (some row)) (PollOutcome.reqExc msg) now es store).map
          (fun r => dGet r "bed") = some (some (jnum 0)) ∧
       (storedRec c (Except.ok (some row)) (PollOutcome.reqExc msg) now es store).map
          (fun r => dGet r "bed_t") = some (some (jnum 0)) ∧
       (storedRec c (Except.ok (some row)) (PollOutcome.reqExc msg) now es store).map
          (fun r => dGet r "filename") = some (some (jstr "")) ∧
       (storedRec c (Except.ok (some row)) (PollOutcome.reqExc msg) now es store).map
          (fun r => dGet r "id") =
        some (dGet ((sGet store c.name).getD (reqFallback c row.tasmota_host)) "id") ∧
       (storedRec c (Except.ok (some row)) (PollOutcome.reqExc msg) now es store).map
          (fun r => dGet r "name") =
        some (dGet ((sGet store c.name).getD (reqFallback c row.tasmota_host)) "name") ∧
       (storedRec c (Except.ok (some row)) (PollOutcome.reqExc msg) now es store).map
          (fun r => dGet r "backend") =
        some (dGet ((sGet store c.name).getD (reqFallback c row.tasmota_host))
          "backend") ∧
       (storedRec c (Except.ok (some row)) (PollOutcome.reqExc msg) now es store).map
          (fun r => dGet r "host") =
        some (dGet ((sGet store c.name).getD (reqFallback c row.tasmota_host)) "host") ∧
       (storedRec c (Except.ok (some row)) (PollOutcome.reqExc msg) now es store).map
          (fun r => dGet r "tasmota_host") =
        some (dGet ((sGet store c.name).getD (reqFallback c row.tasmota_host))
          "tasmota_host"))) ∧
    (∀ msg : String,
      centauriFetchFailure msg =
        PollOutcome.exc ("SDCP-Status konnte nicht gelesen werden: " ++ msg)) ∧
    (∀ (c : MonCfg) (row : Row) (msg : String) (now : ℚ) (es : ErrSt) (store : Store)
        (pr : JObj),
      isCentauriBe c.be = true → row.enabled = some 1 → row.no_scanning ≠ some 1 →
      sGet store c.name = some pr →
      (storedRec c (Except.ok (some row)) (PollOutcome.exc msg) now es store).map
          (fun r => dGet r "state") = some (dGet pr "state")) := by
  refine ⟨?_, fun _ => rfl, ?_⟩
  · intro c row msg now es store he hns
    refine ⟨?_, ?_, ?_, ?_, ?_, ?_, ?_, ?_, ?_, ?_, ?_, ?_, ?_, ?_⟩ <;>
      simp [storedRec, monitorStep, pollPhase, he, hns, sGet, sSet, dUpdate,
        offlineUpd, dGet_dSet]
  · intro c row msg now es store pr hc he hns hprev
    simp only [sGet] at hprev
    simp [storedRec, monitorStep, pollPhase, he, hns, hc, hprev, sGet, sSet,
      dGet_dSet]

/-- C3 witness: a Moonraker device on an unreachable host gets an
`offline` record, and a Centauri device with a previous record keeps
its stored state through a generic failure. -/
theorem unreachable_offline_per_backend_witness :
    (storedRec moonCfg (Except.ok (some okRow)) (PollOutcome.reqExc "conn refused") 0
        ErrSt.init emptyStore).map (fun r => dGet r "state") =
      some (some (jstr "offline")) ∧
    (storedRec centCfg (Except.ok (some okRow)) (PollOutcome.exc "boom") 0 ErrSt.init
        centStore).map (fun r => dGet r "state") = some (dGet prevPrinting "state") :=
  ⟨(unreachable_offline_per_backend.1 moonCfg okRow "conn refused" 0 ErrSt.init
      emptyStore rfl (by decide)).1,
   unreachable_offline_per_backend.2.2 centCfg okRow "boom" 0 ErrSt.init centStore
     prevPrinting rfl rfl (by decide) rfl⟩

/-- C4: on a generic (protocol/unexpected) failure of a Centauri device
with a previous record, every field other than `error`, `last_update`
and `no_scanning` keeps its previous value, `error`/`last_update` are
set to the new text and timestamp and `no_scanning` to false; for any
other backend the same failure forces state `error` with all metrics
zeroed. -/
theorem protocol_failure_frame_effect :
    (∀ (c : MonCfg) (row : Row) (msg : String) (now : ℚ) (es : ErrSt) (store : Store)
        (pr : JObj) (k : String),
      isCentauriBe c.be = true → row.enabled = some 1 → row.no_scanning ≠ some 1 →
      sGet store c.name = some pr →
      k ≠ "error" → k ≠ "last_update" → k ≠ "no_scanning" →
      (storedRec c (Except.ok (some row)) (PollOutcome.exc msg) now es store).map
          (fun r => dGet r k) = some (dGet pr k)) ∧
    (∀ (c : MonCfg) (row : Row) (msg : String) (now : ℚ) (es : ErrSt) (store : Store)
        (pr : JObj),
      isCentauriBe c.be = true → row.enabled = some 1 → row.no_scanning ≠ some 1 →
      sGet store c.name = some pr →
      ((storedRec c (Except.ok (some row)) (PollOutcome.exc msg) now es store).map
          (fun r => dGet r "error") =
        some (some (jstr (unexpectedErrText c.be c.base_url msg))) ∧
       (storedRec c (Except.ok (some row)) (PollOutcome.exc msg) now es store).map
          (fun r => dGet r "last_update") = some (some (jnum (ratTrunc now))) ∧
       (storedRec c (Except.ok (some row)) (PollOutcome.exc msg) now es store).map
          (fun r => dGet r "no_scanning") = some (some (jbool false)))) ∧
    (∀ (c : MonCfg) (row : Row) (msg : String) (now : ℚ) (es : ErrSt) (store : Store),
      isCentauriBe c.be = false → row.enabled = some 1 → row.no_scanning ≠ some 1 →
      ((storedRec c (Except.ok (some row)) (PollOutcome.exc msg) now es store).map
          (fun r => dGet r "state") = some (some (jstr "error")) ∧
       (storedRec c (Except.ok (some row)) (PollOutcome.exc msg) now es store).map
          (fun r => dGet r "progress_pct") = some (some (jnum 0)) ∧
       (storedRec c (Except.ok (some row)) (PollOutcome.exc msg) now es store).map
          (fun r => dGet r "elapsed_s") = some (some (jnum 0)) ∧
       (storedRec c (Except.ok (some row)) (PollOutcome.exc msg) now es store).map
          (fun r => dGet r "eta_s") = some (some (jnum 0)) ∧
       (storedRec c (Except.ok (some row)) (PollOutcome.exc msg) now es store).map
          (fun r => dGet r "hotend") = some (some (jnum 0)) ∧
       (storedRec c (Except.ok (some row)) (PollOutcome.exc msg) now es store).map
          (fun r => dGet r "hotend_t") = some (some (jnum 0)) ∧
       (storedRec c (Except.ok (some row)) (PollOutcome.exc msg) now es store).map
          (fun r => dGet r "bed") = some (some (jnum 0)) ∧
       (storedRec c (Except.ok (some row)) (PollOutcome.exc msg) now es store).map
          (fun r => dGet r "bed_t") = some (some (jnum 0)) ∧
       (storedRec c (Except.ok (some row)) (PollOutcome.exc msg) now es store).map
          (fun r => dGet r "filename") = some (some (jstr "")))) := by
  refine ⟨?_, ?_, ?_⟩
  · intro c row msg now es store pr k hc he hns hprev hk1 hk2 hk3
    simp only [sGet] at hprev
    simp [storedRec, monitorStep, pollPhase, he, hns, hc, hprev, sGet, sSet,
      dGet_dSet, hk1, hk2, hk3]
  · intro c row msg now es store pr hc he hns hprev
    simp only [sGet] at hprev
    refine ⟨?_, ?_, ?_⟩ <;>
      simp [storedRec, monitorStep, pollPhase, he, hns, hc, hprev, sGet, sSet,
        dGet_dSet]
  · intro c row msg now es store hc he hns
    refine ⟨?_, ?_, ?_, ?_, ?_, ?_, ?_, ?_, ?_⟩ <;>
      simp [storedRec, monitorStep, pollPhase, he, hns, hc, sGet, sSet, dUpdate,
        errorUpd, dGet_dSet]

/-- C4 witness: concrete instances of the frame property (the previous
`progress_pct` survives a Centauri failure), of the updated error field,
and of the Moonraker error-state write. -/
theorem protocol_failure_frame_effect_witness :
    (storedRec centCfg (Except.ok (some okRow)) (PollOutcome.exc "boom") 0 ErrSt.init
        centStore).map (fun r => dGet r "progress_pct") =
      some (dGet prevPrinting "progress_pct") ∧
    (storedRec centCfg (Except.ok (some okRow)) (PollOutcome.exc "boom") 0 ErrSt.init
        centStore).map (fun r => dGet r "error") =
      some (some (jstr (unexpectedErrText centCfg.be centCfg.base_url "boom"))) ∧
    (storedRec moonCfg (Except.ok (some okRow)) (PollOutcome.exc "boom") 0 ErrSt.init
        emptyStore).map (fun r => dGet r "state") = some (some (jstr "error")) :=
  ⟨protocol_failure_frame_effect.1 centCfg okRow "boom" 0 ErrSt.init centStore
     prevPrinting "progress_pct" rfl rfl (by decide) rfl (by decide) (by decide)
     (by decide),
   (protocol_failure_frame_effect.2.1 centCfg okRow "boom" 0 ErrSt.init centStore
     prevPrinting rfl rfl (by decide) rfl).1,
   (protocol_failure_frame_effect.2.2 moonCfg okRow "boom" 0 ErrSt.init emptyStore
     (by decide) rfl (by decide)).1⟩

/-- C5: the ETA equals `elapsed * (1/progress - 1)` exactly when both
progress and elapsed are positive and is `0` otherwise; in particular
progress 0.25 with elapsed 600 gives 1800. -/
theorem eta_formula (p e : ℚ) :
    (0 < p → 0 < e → etaS p e = e * (1 / p - 1)) ∧
    (¬ (0 < p ∧ 0 < e) → etaS p e = 0) ∧
    etaS (1 / 4) 600 = 1800 := by
  refine ⟨?_, ?_, by norm_num [etaS]⟩
  · intro hp he
    unfold etaS
    rw [if_pos ⟨⟨ne_of_gt hp, hp⟩, ne_of_gt he, he⟩]
  · intro h
    unfold etaS
    rw [if_neg]
    rintro ⟨⟨_, hp⟩, _, he⟩
    exact h ⟨hp, he⟩

/-- C5 witness: the positive-progress branch applied at progress 0.5,
elapsed 300. -/
theorem eta_formula_witness :
    etaS (1 / 2) 300 = 300 * (1 / (1 / 2) - 1) :=
  (eta_formula (1 / 2) 300).1 (by norm_num) (by norm_num)

/-- C6: for every raw progress value the published percentage is the
one-decimal rounding of the clamped progress times 100, hence always in
[0, 100]; raw progress 1.4 yields 100. -/
theorem progress_pct_clamped_bounds (p : ℚ) :
    progress_bar_pct p = pyRound1 (max 0 (min 1 p) * 100) ∧
    0 ≤ progress_bar_pct p ∧ progress_bar_pct p ≤ 100 ∧
    progress_bar_pct (14 / 10) = 100 := by
  have hc0 : 0 ≤ max 0 (min 1 p) := le_max_left 0 _
  have hc1 : max 0 (min 1 p) ≤ 1 := max_le (by norm_num) (min_le_left 1 p)
  refine ⟨rfl, ?_, ?_, ?_⟩
  · exact pyRound1_nonneg (mul_nonneg hc0 (by norm_num))
  · refine pyRound1_le_100 ?_
    calc max 0 (min 1 p) * 100 ≤ 1 * 100 :=
          mul_le_mul_of_nonneg_right hc1 (by norm_num)
      _ = 100 := by norm_num
  · show pyRound1 (max 0 (min 1 ((14 : ℚ) / 10)) * 100) = 100
    rw [min_eq_left (by norm_num), max_eq_right (by norm_num)]
    norm_num
    unfold pyRound1
    rw [show ((100 : ℚ) * 10) = ((1000 : ℤ) : ℚ) by norm_num, roundHalfEven_intCast]
    norm_num

/-- C7: the OctoPrint free-text state mapping is the spec's ordered,
case-insensitive substring cascade; in particular `"Printing"` maps to
printing, `"Operational"` to standby, `"Offline after error"` to error,
and `"Cancelling"` to cancelled. -/
theorem octoprint_state_mapping :
    (∀ s, octoMapState s = specOctoStateMap s) ∧
    octoMapState "Printing" = "printing" ∧
    octoMapState "Operational" = "standby" ∧
    octoMapState "Offline after error" = "error" ∧
    octoMapState "Cancelling" = "cancelled" := by
  refine ⟨?_, rfl, rfl, rfl, rfl⟩
  intro s
  simp only [octoMapState, specOctoStateMap, specContainsCI, List.any_cons,
    List.any_nil, Bool.or_false, Bool.or_assoc]

/-- C8 counterexample: a Centauri frame whose nozzle temperature is the
non-numeric string `"not_a_number"` makes the whole snapshot fail,
because `fetch_centauri` coerces it with bare `float()` instead of the
`_num` fallback. -/
theorem centauri_nonnumeric_fails_snapshot_cex :
    pyFloat (jstr "not_a_number") = Except.error () ∧
    centauriParse (mkCentNozzle (jstr "not_a_number")) = Except.error () :=
  ⟨rfl, rfl⟩

/-- C8 (amended): `_num` falls back to `0.0` on every value `float()`
rejects; the Moonraker adapter routes its numeric fields through it, so
a non-numeric extruder temperature yields a successful snapshot with
hotend `_num v`; the OctoPrint adapter succeeds on arbitrary
`completion`, `printTime` and temperature values (the `isinstance`
coercion and `_num` both falling back to `0` on anything `float()`
rejects); the Centauri adapter instead uses bare `float()`, so the same
non-numeric value makes its whole snapshot fail. -/
theorem numeric_coercion_fallback_split :
    (∀ v : JVal, pyFloat v = Except.error () → _num v = 0) ∧
    (∀ v : JVal,
      (moonrakerParse (mkMoonBody v)).map Snap.hotend = Except.ok (_num v)) ∧
    (∀ v w x : JVal,
      octoprintParse (mkOctoJob v w) (mkOctoPrn x) =
        Except.ok
          { state := jstr "standby", filename := jstr "a.gcode",
            elapsed := _num w, progress := octoCompletion01 v,
            hotend := _num x, hotend_t := 0, bed := 0, bed_t := 0 }) ∧
    (∀ v : JVal, pyFloat v = Except.error () → octoCompletion01 v = 0) ∧
    (∀ v : JVal, pyFloat v = Except.error () →
      centauriParse (mkCentNozzle v) = Except.error ()) := by
  refine ⟨?_, fun v => rfl, fun v w x => rfl, ?_, ?_⟩
  · intro v h
    simp [_num, h]
  · intro v h
    cases v with
    | jnum q => exact absurd h (by simp [pyFloat])
    | jbool b => exact absurd h (by simp [pyFloat])
    | jstr s => rfl
    | jnull => rfl
    | jobj fs => rfl
    | jarr es => rfl
  · intro v h
    simp [centauriParse, mkCentNozzle, pyGetD, dGetD, dGet, pyOr, truthy, h,
      exceptOkBind, exceptErrBind, exceptMapErr]

/-- C8 witness: the split applied at the non-numeric string `"abc"`:
`_num` falls back to zero, the Moonraker and OctoPrint snapshots
succeed, the completion coercion falls back to zero, and the Centauri
snapshot fails. -/
theorem numeric_coercion_fallback_split_witness :
    _num (jstr "abc") = 0 ∧
    (moonrakerParse (mkMoonBody (jstr "abc"))).map Snap.hotend =
      Except.ok (_num (jstr "abc")) ∧
    octoprintParse (mkOctoJob (jstr "abc") (jstr "abc")) (mkOctoPrn (jstr "abc")) =
      Except.ok
        { state := jstr "standby", filename := jstr "a.gcode",
          elapsed := _num (jstr "abc"), progress := octoCompletion01 (jstr "abc"),
          hotend := _num (jstr "abc"), hotend_t := 0, bed := 0, bed_t := 0 } ∧
    octoCompletion01 (jstr "abc") = 0 ∧
    centauriParse (mkCentNozzle (jstr "abc")) = Except.error () :=
  ⟨numeric_coercion_fallback_split.1 (jstr "abc") rfl,
   numeric_coercion_fallback_split.2.1 (jstr "abc"),
   numeric_coercion_fallback_split.2.2.1 (jstr "abc") (jstr "abc") (jstr "abc"),
   numeric_coercion_fallback_split.2.2.2.1 (jstr "abc") rfl,
   numeric_coercion_fallback_split.2.2.2.2 (jstr "abc") rfl⟩

/-- C9: when the registry row is missing, or present with the enabled
flag not equal to 1, the loop iteration removes the device's entry from
the shared store and exits, leaving nothing under the device's key. -/
theorem disabled_removes_entry_and_exits :
    (∀ (c : MonCfg) (poll : PollOutcome) (now : ℚ) (es : ErrSt) (store : Store),
      (monitorStep c (Except.ok none) poll now es store).exited = true ∧
      storedRec c (Except.ok none) poll now es store = none) ∧
    (∀ (c : MonCfg) (row : Row) (poll : PollOutcome) (now : ℚ) (es : ErrSt)
        (store : Store),
      row.enabled ≠ some 1 →
      (monitorStep c (Except.ok (some row)) poll now es store).exited = true ∧
      storedRec c (Except.ok (some row)) poll now es store = none) := by
  constructor
  · intro c poll now es store
    exact ⟨rfl, by simp [storedRec, monitorStep, sGet, sPop]⟩
  · intro c row poll now es store h
    constructor
    · simp [monitorStep, h]
    · simp [storedRec, monitorStep, h, sGet, sPop]

/-- C9 witness: a row with the enabled flag cleared makes the task exit
with its store entry gone. -/
theorem disabled_removes_entry_and_exits_witness :
    (monitorStep moonCfg (Except.ok (some disabledRow)) (PollOutcome.exc "x") 0
        ErrSt.init emptyStore).exited = true ∧
    storedRec moonCfg (Except.ok (some disabledRow)) (PollOutcome.exc "x") 0
        ErrSt.init emptyStore = none :=
  disabled_removes_entry_and_exits.2 moonCfg disabledRow (PollOutcome.exc "x") 0
    ErrSt.init emptyStore (by decide)

/-- C10: when a Centauri device's poll fails with no record yet stored
under its name, the published record holds exactly the keys `id`,
`name`, `backend`, `host`, `tasmota_host`, `link`, `error`,
`last_update`, `no_scanning` — in particular no `state` key and none of
the metric keys — with the identity values from the task constants and
the formatted error text. -/
theorem first_poll_failure_identity_only :
    ∀ (c : MonCfg) (row : Row) (msg : String) (now : ℚ) (es : ErrSt) (store : Store),
      isCentauriBe c.be = true → row.enabled = some 1 → row.no_scanning ≠ some 1 →
      sGet store c.name = none →
      ((storedRec c (Except.ok (some row)) (PollOutcome.exc msg) now es store).map
          dKeys =
        some ["id", "name", "backend", "host", "tasmota_host", "link",
              "error", "last_update", "no_scanning"] ∧
       (storedRec c (Except.ok (some row)) (PollOutcome.exc msg) now es store).map
          (fun r => dGet r "state") = some none ∧
       (storedRec c (Except.ok (some row)) (PollOutcome.exc msg) now es store).map
          (fun r => dGet r "progress_pct") = some none ∧
       (storedRec c (Except.ok (some row)) (PollOutcome.exc msg) now es store).map
          (fun r => dGet r "elapsed_s") = some none ∧
       (storedRec c (Except.ok (some row)) (PollOutcome.exc msg) now es store).map
          (fun r => dGet r "eta_s") = some none ∧
       (storedRec c (Except.ok (some row)) (PollOutcome.exc msg) now es store).map
          (fun r => dGet r "hotend") = some none ∧
       (storedRec c (Except.ok (some row)) (PollOutcome.exc msg) now es store).map
          (fun r => dGet r "hotend_t") = some none ∧
       (storedRec c (Except.ok (some row)) (PollOutcome.exc msg) now es store).map
          (fun r => dGet r "bed") = some none ∧
       (storedRec c (Except.ok (some row)) (PollOutcome.exc msg) now es store).map
          (fun r => dGet r "bed_t") = some none ∧
       (storedRec c (Except.ok (some row)) (PollOutcome.exc msg) now es store).map
          (fun r => dGet r "id") = some (some (jnum c.printer_id)) ∧
       (storedRec c (Except.ok (some row)) (PollOutcome.exc msg) now es store).map
          (fun r => dGet r "error") =
        some (some (jstr (unexpectedErrText c.be c.base_url msg)))) := by
  intro c row msg now es store hc he hns hprev
  simp only [sGet] at hprev
  refine ⟨?_, ?_, ?_, ?_, ?_, ?_, ?_, ?_, ?_, ?_, ?_⟩ <;>
    simp [storedRec, monitorStep, pollPhase, he, hns, hc, hprev, sGet, sSet,
      genFallback, dSet, dKeys, dGet]

/-- C10 witness: a first-poll failure of the concrete Centauri device
publishes the identity-plus-error record with no state key. -/
theorem first_poll_failure_identity_only_witness :
    (storedRec centCfg (Except.ok (some okRow)) (PollOutcome.exc "boom") 0 ErrSt.init
        emptyStore).map dKeys =
      some ["id", "name", "backend", "host", "tasmota_host", "link",
            "error", "last_update", "no_scanning"] ∧
    (storedRec centCfg (Except.ok (some okRow)) (PollOutcome.exc "boom") 0 ErrSt.init
        emptyStore).map (fun r => dGet r "state") = some none :=
  ⟨(first_poll_failure_identity_only centCfg okRow "boom" 0 ErrSt.init emptyStore rfl
      rfl (by decide) rfl).1,
   (first_poll_failure_identity_only centCfg okRow "boom" 0 ErrSt.init emptyStore rfl
      rfl (by decide) rfl).2.1⟩

end PrintFleet
